import Mathlib

/-!
Shallow embedding of `axlearn/experiments/text/gpt/fuji.py` — the trainer-config
resolution engine for the "fuji" GPT model family — together with theorems checking
the natural-language specification against it.

Python floats appearing in the source are modelled as exact rationals (`ℚ`).  The only
float *arithmetic* in the source divides and multiplies integer device counts by 8, a
power of two: these operations are exact in IEEE double precision for every device
count in range, so exact rational arithmetic is a faithful model, and Python `int()`
on these nonnegative values is the floor.  Float *literals* (learning rates, weight
decays, epsilons) are only stored and compared, never computed with, so representing
each literal by the rational it denotes is faithful as well.

Helpers imported from `axlearn.experiments.text.gpt.common` and other axlearn modules
are not part of the repository snapshot under verification; where their behaviour is
needed it is modelled from the specification and marked `Modelled from the spec:`.
-/

namespace Fuji

/-- Opaque dtype marker: `STEP_DTYPE` is imported from
`axlearn.experiments.text.gpt.common` and only threaded through unchanged. -/
inductive DType
  | step
deriving DecidableEq

/-- `STEP_DTYPE` (imported constant; treated as an opaque value). -/
def STEP_DTYPE : DType := DType.step

/-- Metric accumulation strategies imported from `axlearn.common.learner`. -/
inductive AggStrategy
  | AddStrategy
  | GeometricMeanStrategy
deriving DecidableEq

/-- `axlearn.common.utils.DataPartitionType` (only `DATA` is used by the source). -/
inductive DataPartitionType
  | DATA
deriving DecidableEq

/-- A mesh shape: named parallelism axes mapped to integer sizes.  The sentinel `-1`
means "infer the remaining devices".  Only the axes the source mentions are carried. -/
structure MeshShape where
  data : Int
  fsdp : Int
  model : Int
deriving DecidableEq

/-- Modelled from the spec: `mesh_shape_from_axes` (from
`axlearn.experiments.text.gpt.common`, not in the snapshot) builds a `MeshShape`
from the axis sizes given as keyword arguments, every unspecified axis defaulting
to size 1 (§3 MeshShape).  Arguments here are positional: `data`, `fsdp`, `model`. -/
def mesh_shape_from_axes (data fsdp model : Int) : MeshShape :=
  { data := data, fsdp := fsdp, model := model }

/-- A feed-forward dimension specification: either a concrete integer or the deferred
computation produced by `scaled_hidden_dim` (§3 DimensionSpec). -/
inductive FfnDim
  | concrete (n : ℕ)
  | scaled (scale : ℚ) (round_up_to_multiples_of : ℕ)
deriving DecidableEq

/-- `scaled_hidden_dim(scale=…, round_up_to_multiples_of=…)` (from
`axlearn.experiments.text.gpt.common`): the source only ever *constructs* this
deferred spec, so the constructor is all the snapshot determines. -/
def scaled_hidden_dim (scale : ℚ) (round_up_to_multiples_of : ℕ) : FfnDim :=
  FfnDim.scaled scale round_up_to_multiples_of

/-- Modelled from the spec: evaluation of a `DimensionSpec` against a known base
dimension (§4.1 Dimension Scaler): for a deferred spec with scale `s` and rounding
multiple `m`, the result is `m * ceil(s * base / m)`; a concrete spec is returned
unchanged. -/
def resolveDim (base : ℕ) : FfnDim → ℕ
  | FfnDim.concrete n => n
  | FfnDim.scaled s m => m * (⌈s * (base : ℚ) / (m : ℚ)⌉).toNat

/-- Config of `axlearn.common.attention.FusedQKVLinear` (only the field the source
sets is carried). -/
structure FusedQKVLinearCfg where
  cache_dtype : Option DType
deriving DecidableEq

/-- `FusedQKVLinear.default_config()`: canonical default; the one carried field is
overridden by the source before use. -/
def FusedQKVLinear.default_config : FusedQKVLinearCfg :=
  { cache_dtype := none }

/-- Config of `axlearn.common.attention.RoFormerQKVLinear` (rotary position
encoding applied inside the QKV projection). -/
structure RoFormerQKVLinearCfg where
  input_linear : FusedQKVLinearCfg
  rotary_value : Bool
deriving DecidableEq

/-- `RoFormerQKVLinear.default_config()`: canonical default; both carried fields are
overridden by the source before use. -/
def RoFormerQKVLinear.default_config : RoFormerQKVLinearCfg :=
  { input_linear := FusedQKVLinear.default_config, rotary_value := true }

/-- The QKV-projection strategy slot of the model config: either a rotary
(`RoFormerQKVLinear`) projection or a plain fused projection. -/
inductive QKVLinearCfg
  | roformer (cfg : RoFormerQKVLinearCfg)
  | fused (cfg : FusedQKVLinearCfg)
deriving DecidableEq

/-- Config of `axlearn.common.layers.RMSNorm` (only the fields the source sets are
carried). -/
structure RMSNormCfg where
  eps : ℚ
  forward_dtype : Option DType
deriving DecidableEq

/-- `RMSNorm.default_config()`: canonical default; both carried fields are overridden
by the source before use. -/
def RMSNorm.default_config : RMSNormCfg :=
  { eps := 1e-8, forward_dtype := none }

/-- Config of `axlearn.common.embedding.TransformerTextEmbeddings`: `pos_emb` is an
optional additive positional-embedding sub-config (`none` = no additive positional
embedding). -/
structure EmbCfg where
  pos_emb : Option Unit
deriving DecidableEq

/-- `TransformerTextEmbeddings.default_config()`: the source explicitly sets
`pos_emb=None` on it, so the default value of that field is never observable. -/
def TransformerTextEmbeddings.default_config : EmbCfg :=
  { pos_emb := none }

/-- The attention-mask strategy slot; the source always uses
`CausalAttentionLogitBiasLayer.default_config()`. -/
inductive AttnMaskCfg
  | causal
deriving DecidableEq

/-- `CausalAttentionLogitBiasLayer.default_config()`. -/
def CausalAttentionLogitBiasLayer.default_config : AttnMaskCfg :=
  AttnMaskCfg.causal

/-- The stacked-layer strategy slot (`StackedTransformerLayer` vs
`RepeatedTransformerLayer`). -/
inductive StackCfg
  | stacked
  | repeated
deriving DecidableEq

/-- `StackedTransformerLayer.default_config()`. -/
def StackedTransformerLayer.default_config : StackCfg :=
  StackCfg.stacked

/-- The feed-forward activation slot: Python passes either a single activation name
or a tuple of exactly two names (the gated pair). -/
inductive ActivationSpec
  | single (fn : String)
  | pair (fn1 fn2 : String)
deriving DecidableEq

/-- The composed causal-LM model configuration (§3 ModelConfig): the hyperparameters
and sub-configuration slots that `common_model_config` receives from `model_config`. -/
structure ModelConfig where
  num_layers : ℕ
  hidden_dim : ℕ
  num_heads : ℕ
  vocab_size : ℕ
  stack_cfg : StackCfg
  activation_fn : ActivationSpec
  ffn_dim : FfnDim
  normalization : RMSNormCfg
  dropout_rate : ℚ
  emb_cfg : EmbCfg
  attention_mask : AttnMaskCfg
  attention_qkv_linear : QKVLinearCfg
deriving DecidableEq

/-- Modelled from the spec: `common_model_config` (from
`axlearn.experiments.text.gpt.common`, not in the snapshot) assembles the nested
model configuration from named default sub-configurations overridden with the
resolved hyperparameters, prototype-with-override style (§4.4): the record simply
holds the sub-configs and dimensions the caller passes. -/
def common_model_config (num_layers hidden_dim num_heads vocab_size : ℕ)
    (stack_cfg : StackCfg) (activation_fn : ActivationSpec) (ffn_dim : FfnDim)
    (normalization : RMSNormCfg) (dropout_rate : ℚ) (emb_cfg : EmbCfg)
    (attention_mask : AttnMaskCfg) (attention_qkv_linear : QKVLinearCfg) :
    ModelConfig :=
  { num_layers := num_layers
    hidden_dim := hidden_dim
    num_heads := num_heads
    vocab_size := vocab_size
    stack_cfg := stack_cfg
    activation_fn := activation_fn
    ffn_dim := ffn_dim
    normalization := normalization
    dropout_rate := dropout_rate
    emb_cfg := emb_cfg
    attention_mask := attention_mask
    attention_qkv_linear := attention_qkv_linear }

/-- `fuji.model_config` (source lines 116–162).  `dropout_rate` defaults to `0.0`
and `ffn_dim` to `None` in Python; both are passed explicitly here. -/
def model_config (num_layers hidden_dim num_heads vocab_size : ℕ)
    (dropout_rate : ℚ) (ffn_dim : Option FfnDim) : ModelConfig :=
  -- SwiGLU: activation_fn = ("nn.silu", "linear")
  let activation_fn := ActivationSpec.pair "nn.silu" "linear"
  -- if ffn_dim is None: ffn_dim = scaled_hidden_dim(scale=8/3, round_up_to_multiples_of=256)
  let ffn_dim := ffn_dim.getD (scaled_hidden_dim (8 / 3) 256)
  common_model_config num_layers hidden_dim num_heads vocab_size
    StackedTransformerLayer.default_config
    activation_fn
    ffn_dim
    -- RMSNorm.default_config().set(eps=1e-5, forward_dtype=None)
    { RMSNorm.default_config with eps := 1e-5, forward_dtype := none }
    dropout_rate
    -- TransformerTextEmbeddings.default_config().set(pos_emb=None)
    { TransformerTextEmbeddings.default_config with pos_emb := none }
    CausalAttentionLogitBiasLayer.default_config
    -- RoFormerQKVLinear.default_config().set(input_linear=FusedQKVLinear…, rotary_value=False)
    (QKVLinearCfg.roformer
      { RoFormerQKVLinear.default_config with
          input_linear :=
            { FusedQKVLinear.default_config with cache_dtype := some STEP_DTYPE }
          rotary_value := false })

/-- The learner configuration (§3 LearnerConfig). -/
structure LearnerConfig where
  max_step : ℕ
  gradient_accumulation_microbatches : ℕ
  metrics_accumulation_key_ops : List (String × AggStrategy)
  peak_lr : ℚ
  weight_decay : ℚ
deriving DecidableEq

/-- Modelled from the spec: `learner_config` (from
`axlearn.experiments.text.gpt.common`, not in the snapshot) builds the learner
configuration by copying the preset learner hyperparameters and attaching the
gradient-accumulation microbatch count and the metric-aggregation mapping (§4.4). -/
def learner_config (max_step gradient_accumulation_microbatches : ℕ)
    (metrics_accumulation_key_ops : List (String × AggStrategy))
    (peak_lr weight_decay : ℚ) : LearnerConfig :=
  { max_step := max_step
    gradient_accumulation_microbatches := gradient_accumulation_microbatches
    metrics_accumulation_key_ops := metrics_accumulation_key_ops
    peak_lr := peak_lr
    weight_decay := weight_decay }

/-- `MODEL_SIZES = ("test", "7B")` (source line 30). -/
def MODEL_SIZES : List String := ["test", "7B"]

/-- `MAX_SEQUENCE_LENGTH = 2048` (source line 31). -/
def MAX_SEQUENCE_LENGTH : ℕ := 2048

/-- `TRN_MODEL_AXIS_SIZE = 8` (source line 32). -/
def TRN_MODEL_AXIS_SIZE : ℕ := 8

/-- `GRADIENT_ACCUMULATION_MICROBATCHES = 8` (source line 33). -/
def GRADIENT_ACCUMULATION_MICROBATCHES : ℕ := 8

/-- Python `int()` applied to a nonnegative rational value: truncation toward zero,
i.e. the floor.  Every use models a float expression that is exact in IEEE double
precision (division/multiplication of an integer by 8). -/
def pyIntNat (q : ℚ) : ℕ := (⌊q⌋).toNat

/-- The per-branch `model_kwargs` dict.  `vocab_size` is optional because a Python
dict may omit the key (the later `setdefault` call is only observable then). -/
structure ModelKwargs where
  num_layers : ℕ
  hidden_dim : ℕ
  ffn_dim : FfnDim
  num_heads : ℕ
  vocab_size : Option ℕ
deriving DecidableEq

/-- The per-branch `learner_kwargs` dict. -/
structure LearnerKwargs where
  peak_lr : ℚ
  weight_decay : ℚ
deriving DecidableEq

/-- The per-branch `trainer_kwargs` dict before the common tail of
`get_trainer_kwargs` replaces `model_kwargs`/`learner_kwargs` by the composed
configs.  `mesh_rules` and `eval_every_n_steps` are absent from the test branch
(`[]` / `none`). -/
structure BranchKwargs where
  model_kwargs : ModelKwargs
  learner_kwargs : LearnerKwargs
  input_partition_type : DataPartitionType
  max_sequence_length : ℕ
  train_batch_size : ℕ
  max_step : ℕ
  mesh_shape : MeshShape
  mesh_rules : List (String × MeshShape)
  eval_batch_size : ℕ
  eval_every_n_steps : Option ℕ
deriving DecidableEq

/-- The final `trainer_kwargs` dict returned by `get_trainer_kwargs`: the branch
dict with `model_kwargs`/`learner_kwargs` popped and `model_cfg`/`learner_cfg`
added. -/
structure TrainerKwargs where
  input_partition_type : DataPartitionType
  max_sequence_length : ℕ
  train_batch_size : ℕ
  max_step : ℕ
  mesh_shape : MeshShape
  mesh_rules : List (String × MeshShape)
  eval_batch_size : ℕ
  eval_every_n_steps : Option ℕ
  model_cfg : ModelConfig
  learner_cfg : LearnerConfig
deriving DecidableEq

/-- `model_kwargs.setdefault("vocab_size", vocab_size)` (source line 104): inserts
the caller-supplied value only when the key is absent. -/
def setdefault_vocab (mk : ModelKwargs) (vocab_size : ℕ) : ModelKwargs :=
  { mk with vocab_size := some (mk.vocab_size.getD vocab_size) }

/-- The `model_size == "test"` branch (source lines 46–65).  `device_count` stands
for `jax.device_count()`, which the source reads internally. -/
def test_kwargs (device_count : ℕ) : BranchKwargs :=
  { model_kwargs :=
      { num_layers := 4
        hidden_dim := 8
        ffn_dim := scaled_hidden_dim (8 / 3) 16
        num_heads := 4
        vocab_size := some 32 }
    learner_kwargs := { peak_lr := 6e-4, weight_decay := 0.01 }
    input_partition_type := DataPartitionType.DATA
    max_sequence_length := 64
    train_batch_size := 16
    max_step := 3000
    mesh_shape := mesh_shape_from_axes 1 1 1  -- mesh_shape_from_axes()  # cpu
    mesh_rules := []  -- key absent in this branch
    -- eval_batch_size = int(jax.device_count() / TRN_MODEL_AXIS_SIZE)
    eval_batch_size :=
      pyIntNat ((device_count : ℚ) / (TRN_MODEL_AXIS_SIZE : ℚ))
    eval_every_n_steps := none }  -- key absent in this branch

/-- The `model_size == "7B"` branch (source lines 66–99). -/
def sevenB_kwargs (device_count : ℕ) : BranchKwargs :=
  { model_kwargs :=
      { num_layers := 2
        hidden_dim := 512
        ffn_dim := scaled_hidden_dim 4 16
        num_heads := 32
        vocab_size := some 32000 }
    learner_kwargs := { peak_lr := 3e-4, weight_decay := 0.1 }
    input_partition_type := DataPartitionType.DATA
    -- train_batch_size = int((jax.device_count()/TRN_MODEL_AXIS_SIZE)*GRADIENT_ACCUMULATION_MICROBATCHES)
    train_batch_size :=
      pyIntNat (((device_count : ℚ) / (TRN_MODEL_AXIS_SIZE : ℚ)) *
        (GRADIENT_ACCUMULATION_MICROBATCHES : ℚ))
    max_sequence_length := MAX_SEQUENCE_LENGTH
    max_step := 500000
    mesh_shape := mesh_shape_from_axes 1 (-1) 1  -- mesh_shape_from_axes(fsdp=-1)
    mesh_rules :=
      [("tpu-v4-(1024|2048)", mesh_shape_from_axes (-1) 16 1),
       ("tpu-v5litepod-256", mesh_shape_from_axes (-1) 16 1),
       ("gpu-(p5.48xlarge|p4de.24xlarge)-(256|512|1024)", mesh_shape_from_axes (-1) 8 1),
       ("neuron-(trn1.32xlarge|trn1n.32xlarge)-(32|64|256|512|1024|2048)",
        mesh_shape_from_axes (-1) 1 (TRN_MODEL_AXIS_SIZE : Int))]
    -- eval_batch_size = int(jax.device_count() / TRN_MODEL_AXIS_SIZE)
    eval_batch_size :=
      pyIntNat ((device_count : ℚ) / (TRN_MODEL_AXIS_SIZE : ℚ))
    eval_every_n_steps := some 5000 }

/-- The metric-aggregation mapping passed to `learner_config` (source line 109):
a single entry summing the per-batch bits-per-byte summary mean. -/
def metrics_key_ops : List (String × AggStrategy) :=
  [(".output_collection.summaries[\x27bits_per_byte\x27].mean", AggStrategy.AddStrategy)]

/-- The common tail of `get_trainer_kwargs` (source lines 103–113): pop
`model_kwargs`, `setdefault` the vocabulary size, compose `model_cfg` and
`learner_cfg`, and return the final dict. -/
def finalize_kwargs (vocab_size : ℕ) (bk : BranchKwargs) : TrainerKwargs :=
  let mk := setdefault_vocab bk.model_kwargs vocab_size
  { input_partition_type := bk.input_partition_type
    max_sequence_length := bk.max_sequence_length
    train_batch_size := bk.train_batch_size
    max_step := bk.max_step
    mesh_shape := bk.mesh_shape
    mesh_rules := bk.mesh_rules
    eval_batch_size := bk.eval_batch_size
    eval_every_n_steps := bk.eval_every_n_steps
    -- model_cfg = model_config(**model_kwargs); dropout_rate defaults to 0.0
    model_cfg :=
      model_config mk.num_layers mk.hidden_dim mk.num_heads
        (mk.vocab_size.getD vocab_size) 0 (some mk.ffn_dim)
    -- learner_cfg = learner_config(max_step=…, gradient_accumulation_microbatches=…,
    --   metrics_accumulation_key_ops=…, **learner_kwargs)
    learner_cfg :=
      learner_config bk.max_step GRADIENT_ACCUMULATION_MICROBATCHES
        metrics_key_ops bk.learner_kwargs.peak_lr bk.learner_kwargs.weight_decay }

/-- `get_trainer_kwargs(model_size, *, vocab_size)` (source lines 42–113).
`device_count` models the internal `jax.device_count()` reads.  The second
component of a successful result is the list of lines the call prints (the `"7B"`
branch prints its training batch size).  An unknown size key raises
`NotImplementedError`, modelled as `Except.error` carrying the message and no
configuration. -/
def get_trainer_kwargs (model_size : String) (vocab_size device_count : ℕ) :
    Except String (TrainerKwargs × List String) :=
  if model_size = "test" then
    Except.ok (finalize_kwargs vocab_size (test_kwargs device_count), [])
  else if model_size = "7B" then
    let bk := sevenB_kwargs device_count
    -- print("batch size is ", trainer_kwargs["train_batch_size"])
    Except.ok (finalize_kwargs vocab_size bk,
      ["batch size is " ++ " " ++ toString bk.train_batch_size])
  else
    Except.error ("Unknown model size " ++ model_size ++ ".")

/-- The successfully returned trainer kwargs, if any. -/
def okPart (e : Except String (TrainerKwargs × List String)) : Option TrainerKwargs :=
  (e.toOption).map Prod.fst

/-- The lines printed by a call (empty when the call raised). -/
def traceOf (e : Except String (TrainerKwargs × List String)) : List String :=
  ((e.toOption).map Prod.snd).getD []

/-- The model config of a successful result. -/
def modelOf (e : Except String (TrainerKwargs × List String)) : Option ModelConfig :=
  (okPart e).map TrainerKwargs.model_cfg

/-- The learner config of a successful result. -/
def learnerOf (e : Except String (TrainerKwargs × List String)) : Option LearnerConfig :=
  (okPart e).map TrainerKwargs.learner_cfg

/-- `int()` of a natural number is the number itself. -/
theorem pyIntNat_natCast (d : ℕ) : pyIntNat (d : ℚ) = d := by
  unfold pyIntNat
  rw [Int.floor_natCast]
  exact Int.toNat_natCast d

/-- `int(a / b)` on naturals is truncating natural division. -/
theorem pyIntNat_natCast_div (a b : ℕ) : pyIntNat ((a : ℚ) / (b : ℚ)) = a / b := by
  unfold pyIntNat
  rw [Rat.floor_natCast_div_natCast]
  norm_cast

/-- The evaluation batch size expression truncates to natural division by the model
axis size. -/
theorem eval_batch_eval (d : ℕ) :
    pyIntNat ((d : ℚ) / (TRN_MODEL_AXIS_SIZE : ℚ)) = d / TRN_MODEL_AXIS_SIZE :=
  pyIntNat_natCast_div d TRN_MODEL_AXIS_SIZE

/-- The 7B training-batch expression `int((d / 8) * 8)` evaluates to `d` itself: the
division and multiplication cancel exactly before `int()` truncates. -/
theorem train7B_eval (d : ℕ) :
    pyIntNat (((d : ℚ) / (TRN_MODEL_AXIS_SIZE : ℚ)) *
      (GRADIENT_ACCUMULATION_MICROBATCHES : ℚ)) = d := by
  have h : ((d : ℚ) / (TRN_MODEL_AXIS_SIZE : ℚ)) * (GRADIENT_ACCUMULATION_MICROBATCHES : ℚ)
      = (d : ℚ) := by
    unfold TRN_MODEL_AXIS_SIZE GRADIENT_ACCUMULATION_MICROBATCHES
    push_cast
    rw [div_mul_cancel₀]
    norm_num
  rw [h]
  exact pyIntNat_natCast d

/-- Unfolding of the driver on the "test" branch. -/
theorem get_test_eq (v d : ℕ) :
    get_trainer_kwargs "test" v d =
      Except.ok (finalize_kwargs v (test_kwargs d), []) := by
  unfold get_trainer_kwargs
  simp

/-- Unfolding of the driver on the "7B" branch, including the printed line. -/
theorem get_7B_eq (v d : ℕ) :
    get_trainer_kwargs "7B" v d =
      Except.ok (finalize_kwargs v (sevenB_kwargs d),
        ["batch size is " ++ " " ++ toString (sevenB_kwargs d).train_batch_size]) := by
  unfold get_trainer_kwargs
  simp

/-- Unfolding of the driver on an unknown size key. -/
theorem get_unknown (k : String) (v d : ℕ) (h1 : ¬ k = "test") (h2 : ¬ k = "7B") :
    get_trainer_kwargs k v d = Except.error ("Unknown model size " ++ k ++ ".") := by
  unfold get_trainer_kwargs
  rw [if_neg h1, if_neg h2]

/-- The test preset's deferred ffn spec (scale 8/3, rounding multiple 16) resolves to
32 against base dimension 8. -/
theorem resolve_test_ffn : resolveDim 8 (FfnDim.scaled (8 / 3) 16) = 32 := by
  have h : ⌈(8 / 3 : ℚ) * ((8 : ℕ) : ℚ) / ((16 : ℕ) : ℚ)⌉ = 2 := by
    apply Int.ceil_eq_iff.mpr
    constructor <;> norm_num
  simp only [resolveDim, h]
  rfl

/-- C1: resolving size key "test" with caller vocabulary size 32 produces a model
config with 4 transformer layers, hidden width 8, vocabulary size 32, and a deferred
feed-forward width spec of scale 8/3 rounded up to a multiple of 16 (resolving to 32
against base 8), together with a learner config with peak learning rate 6e-4, weight
decay 0.01, and max training steps 3000. -/
theorem claim_C1 (d : ℕ) :
    (modelOf (get_trainer_kwargs "test" 32 d)).map ModelConfig.num_layers = some 4 ∧
    (modelOf (get_trainer_kwargs "test" 32 d)).map ModelConfig.hidden_dim = some 8 ∧
    (modelOf (get_trainer_kwargs "test" 32 d)).map ModelConfig.vocab_size = some 32 ∧
    (modelOf (get_trainer_kwargs "test" 32 d)).map ModelConfig.ffn_dim =
      some (scaled_hidden_dim (8 / 3) 16) ∧
    (modelOf (get_trainer_kwargs "test" 32 d)).map
      (fun m => resolveDim m.hidden_dim m.ffn_dim) = some 32 ∧
    (learnerOf (get_trainer_kwargs "test" 32 d)).map LearnerConfig.peak_lr = some 6e-4 ∧
    (learnerOf (get_trainer_kwargs "test" 32 d)).map LearnerConfig.weight_decay = some 0.01 ∧
    (learnerOf (get_trainer_kwargs "test" 32 d)).map LearnerConfig.max_step = some 3000 := by
  rw [modelOf, learnerOf, okPart, get_test_eq]
  refine ⟨rfl, rfl, rfl, rfl, ?_, rfl, rfl, rfl⟩
  simp only [Except.toOption, Option.map, finalize_kwargs, test_kwargs,
    setdefault_vocab, model_config, common_model_config, scaled_hidden_dim,
    Option.getD]
  rw [resolve_test_ffn]

/-- C2: for every size key outside the fixed preset universe `MODEL_SIZES` =
("test", "7B"), the lookup fails with the unknown-size-key error and returns no
configuration object (the error carries only the message); for every key inside the
set it succeeds. -/
theorem claim_C2 (k : String) (v d : ℕ) :
    (k ∈ MODEL_SIZES → (okPart (get_trainer_kwargs k v d)).isSome = true) ∧
    (k ∉ MODEL_SIZES →
      get_trainer_kwargs k v d = Except.error ("Unknown model size " ++ k ++ ".")) := by
  constructor
  · intro hk
    simp only [ MODEL_SIZES, List.mem_cons, List.mem_singleton, List.not_mem_nil,
      or_false] at hk
    rcases hk with h | h <;> subst h
    · rw [okPart, get_test_eq]; rfl
    · rw [okPart, get_7B_eq]; rfl
  · intro hk
    simp only [ MODEL_SIZES, List.mem_cons, List.mem_singleton, List.not_mem_nil,
      or_false, not_or] at hk
    exact get_unknown k v d hk.1 hk.2

/-- C2 witness: key "test" succeeds; key "tiny" fails with the unknown-size-key
error. -/
theorem claim_C2_w :
    (okPart (get_trainer_kwargs "test" 32 8)).isSome = true ∧
    get_trainer_kwargs "tiny" 32 8 =
      Except.error ("Unknown model size " ++ "tiny" ++ ".") :=
  ⟨(claim_C2 "test" 32 8).1 (by simp [ MODEL_SIZES]),
   (claim_C2 "tiny" 32 8).2 (by simp [ MODEL_SIZES])⟩

/-- C3 counterexample: with device count 63 (not divisible by the model axis size 8)
the resolution does *not* fail: it succeeds and produces the silently truncated
evaluation batch size 7. -/
theorem claim_C3_cex :
    (okPart (get_trainer_kwargs "test" 32 63)).isSome = true ∧
    (okPart (get_trainer_kwargs "test" 32 63)).map TrainerKwargs.eval_batch_size =
      some 7 := by
  rw [okPart, get_test_eq]
  refine ⟨rfl, ?_⟩
  simp only [Except.toOption, Option.map, finalize_kwargs, test_kwargs]
  rw [eval_batch_eval]
  rfl

/-- C3 (amended): for every valid size key, the evaluation batch size equals the
device count divided by the model-parallel axis size with truncating integer
division; non-divisible device counts are silently truncated, never rejected. -/
theorem claim_C3_amend (k : String) (v d : ℕ) (hk : k ∈ MODEL_SIZES) :
    (okPart (get_trainer_kwargs k v d)).map TrainerKwargs.eval_batch_size =
      some (d / TRN_MODEL_AXIS_SIZE) := by
  simp only [ MODEL_SIZES, List.mem_cons, List.mem_singleton, List.not_mem_nil,
    or_false] at hk
  rcases hk with h | h <;> subst h
  · rw [okPart, get_test_eq]
    simp only [Except.toOption, Option.map, finalize_kwargs, test_kwargs]
    rw [eval_batch_eval]
  · rw [okPart, get_7B_eq]
    simp only [Except.toOption, Option.map, finalize_kwargs, sevenB_kwargs]
    rw [eval_batch_eval]

/-- C3 (amended) witness at key "test", device count 63. -/
theorem claim_C3_amend_w :
    (okPart (get_trainer_kwargs "test" 32 63)).map TrainerKwargs.eval_batch_size =
      some (63 / TRN_MODEL_AXIS_SIZE) :=
  claim_C3_amend "test" 32 63 (by simp [ MODEL_SIZES])

/-- C4 counterexample: with caller vocabulary size 100 and key "test", the emitted
model config's vocabulary size is the preset's hardcoded 32, not the caller's
value. -/
theorem claim_C4_cex :
    (modelOf (get_trainer_kwargs "test" 100 8)).map ModelConfig.vocab_size = some 32 ∧
    ¬ (modelOf (get_trainer_kwargs "test" 100 8)).map ModelConfig.vocab_size =
      some 100 := by
  have h32 : (modelOf (get_trainer_kwargs "test" 100 8)).map ModelConfig.vocab_size =
      some 32 := by
    rw [modelOf, okPart, get_test_eq]; rfl
  refine ⟨h32, ?_⟩
  rw [h32]
  simp

/-- C4 (amended): the `setdefault` step inserts the caller-supplied vocabulary size
exactly when the preset's bundle omits it; since both presets hardcode a vocabulary
size (32 and 32000), every emitted config carries the preset's value, not the
caller's. -/
theorem claim_C4_amend (mk : ModelKwargs) (v v2 d : ℕ) :
    (setdefault_vocab mk v).vocab_size = some (mk.vocab_size.getD v) ∧
    (modelOf (get_trainer_kwargs "test" v2 d)).map ModelConfig.vocab_size = some 32 ∧
    (modelOf (get_trainer_kwargs "7B" v2 d)).map ModelConfig.vocab_size =
      some 32000 := by
  refine ⟨rfl, ?_, ?_⟩
  · rw [modelOf, okPart, get_test_eq]; rfl
  · rw [modelOf, okPart, get_7B_eq]; rfl

/-- C5 counterexample: two calls with the same size key and vocabulary size but
different ambient device counts yield different results (device count is read
internally, not supplied as an argument), and the "7B" branch performs output
(its print trace is nonempty). -/
theorem claim_C5_cex :
    get_trainer_kwargs "7B" 32000 8 ≠ get_trainer_kwargs "7B" 32000 16 ∧
    traceOf (get_trainer_kwargs "7B" 32000 64) ≠ [] := by
  constructor
  · intro h
    have h2 := congrArg (fun e => (okPart e).map TrainerKwargs.train_batch_size) h
    simp only [okPart, get_7B_eq, Except.toOption, Option.map, finalize_kwargs,
      sevenB_kwargs] at h2
    rw [train7B_eval, train7B_eval] at h2
    simp at h2
  · rw [traceOf, get_7B_eq]
    simp only [Except.toOption, Option.map, Option.getD]
    exact List.cons_ne_nil _ _

/-- C5 (amended): resolution is a deterministic function of size key, vocabulary
size, and the internally discovered device count: the "test" branch prints nothing,
the "7B" branch prints exactly its training batch size, and two "7B" results agree
exactly when the device counts agree. -/
theorem claim_C5_amend (v d e : ℕ) :
    traceOf (get_trainer_kwargs "test" v d) = [] ∧
    traceOf (get_trainer_kwargs "7B" v d) =
      ["batch size is " ++ " " ++ toString d] ∧
    (get_trainer_kwargs "7B" v d = get_trainer_kwargs "7B" v e ↔ d = e) := by
  refine ⟨by rw [traceOf, get_test_eq]; rfl, ?_, ?_, ?_⟩
  · rw [traceOf, get_7B_eq]
    simp only [Except.toOption, Option.map, Option.getD, sevenB_kwargs]
    rw [train7B_eval]
  · intro h
    have h2 := congrArg (fun x => (okPart x).map TrainerKwargs.train_batch_size) h
    simp only [okPart, get_7B_eq, Except.toOption, Option.map, finalize_kwargs,
      sevenB_kwargs] at h2
    rw [train7B_eval, train7B_eval] at h2
    simpa using h2
  · intro h
    rw [h]

/-- C6 counterexample: with device count 63 the "7B" training batch size is 63 (the
float expression `int((63/8)*8)` is exact), not `(63 div 8) * 8 = 56` as the claim's
integer-division formula asserts. -/
theorem claim_C6_cex :
    (okPart (get_trainer_kwargs "7B" 32000 63)).map TrainerKwargs.train_batch_size =
      some 63 ∧
    ¬ (okPart (get_trainer_kwargs "7B" 32000 63)).map TrainerKwargs.train_batch_size =
      some (63 / TRN_MODEL_AXIS_SIZE * GRADIENT_ACCUMULATION_MICROBATCHES) := by
  have h : (okPart (get_trainer_kwargs "7B" 32000 63)).map TrainerKwargs.train_batch_size =
      some 63 := by
    rw [okPart, get_7B_eq]
    simp only [Except.toOption, Option.map, finalize_kwargs, sevenB_kwargs]
    rw [train7B_eval]
  refine ⟨h, ?_⟩
  rw [h]
  simp [ TRN_MODEL_AXIS_SIZE, GRADIENT_ACCUMULATION_MICROBATCHES]

/-- C6 (amended): the "7B" training batch size always equals the device count itself
(the float division and multiplication by 8 cancel exactly); it equals
`(deviceCount div axisSize) * microbatchCount` exactly when the device count is
divisible by the model axis size. -/
theorem claim_C6_amend (v d : ℕ) :
    (okPart (get_trainer_kwargs "7B" v d)).map TrainerKwargs.train_batch_size =
      some d ∧
    (TRN_MODEL_AXIS_SIZE ∣ d →
      (okPart (get_trainer_kwargs "7B" v d)).map TrainerKwargs.train_batch_size =
        some (d / TRN_MODEL_AXIS_SIZE * GRADIENT_ACCUMULATION_MICROBATCHES)) := by
  have h : (okPart (get_trainer_kwargs "7B" v d)).map TrainerKwargs.train_batch_size =
      some d := by
    rw [okPart, get_7B_eq]
    simp only [Except.toOption, Option.map, finalize_kwargs, sevenB_kwargs]
    rw [train7B_eval]
  refine ⟨h, fun hdvd => ?_⟩
  rw [h]
  simp only [ TRN_MODEL_AXIS_SIZE, GRADIENT_ACCUMULATION_MICROBATCHES] at hdvd ⊢
  rw [Nat.div_mul_cancel hdvd]

/-- C6 (amended) witness at device count 64, which is divisible by the axis size. -/
theorem claim_C6_w :
    (okPart (get_trainer_kwargs "7B" 32000 64)).map TrainerKwargs.train_batch_size =
      some (64 / TRN_MODEL_AXIS_SIZE * GRADIENT_ACCUMULATION_MICROBATCHES) :=
  (claim_C6_amend 32000 64).2 (by decide)

/-- C7: for every argument tuple of `model_config` and every valid size key, the
composed model config uses rotary positional encoding inside the QKV projection with
the rotary-value projection disabled and no separate additive positional
embedding; the choice does not depend on any parameter. -/
theorem claim_C7 (nl hd nh vs : ℕ) (dr : ℚ) (fd : Option FfnDim) (k : String)
    (v d : ℕ) :
    (model_config nl hd nh vs dr fd).attention_qkv_linear =
      QKVLinearCfg.roformer
        { input_linear := { cache_dtype := some STEP_DTYPE }, rotary_value := false } ∧
    (model_config nl hd nh vs dr fd).emb_cfg.pos_emb = none ∧
    (k ∈ MODEL_SIZES →
      (modelOf (get_trainer_kwargs k v d)).map ModelConfig.attention_qkv_linear =
        some (QKVLinearCfg.roformer
          { input_linear := { cache_dtype := some STEP_DTYPE },
            rotary_value := false }) ∧
      (modelOf (get_trainer_kwargs k v d)).map (fun m => m.emb_cfg.pos_emb) =
        some none) := by
  refine ⟨rfl, rfl, fun hk => ?_⟩
  simp only [ MODEL_SIZES, List.mem_cons, List.mem_singleton, List.not_mem_nil,
    or_false] at hk
  rcases hk with h | h <;> subst h
  · rw [modelOf, okPart, get_test_eq]; exact ⟨rfl, rfl⟩
  · rw [modelOf, okPart, get_7B_eq]; exact ⟨rfl, rfl⟩

/-- C7 witness at key "test". -/
theorem claim_C7_w :
    (modelOf (get_trainer_kwargs "test" 32 8)).map ModelConfig.attention_qkv_linear =
      some (QKVLinearCfg.roformer
        { input_linear := { cache_dtype := some STEP_DTYPE },
          rotary_value := false }) ∧
    (modelOf (get_trainer_kwargs "test" 32 8)).map (fun m => m.emb_cfg.pos_emb) =
      some none :=
  (claim_C7 1 1 1 1 0 none "test" 32 8).2.2 (by simp [ MODEL_SIZES])

/-- C8: for every valid size key, the learner config carries exactly one
metric-aggregation entry, and its strategy is the summing `AddStrategy`. -/
theorem claim_C8 (k : String) (v d : ℕ) (hk : k ∈ MODEL_SIZES) :
    (learnerOf (get_trainer_kwargs k v d)).map
        LearnerConfig.metrics_accumulation_key_ops =
      some [(".output_collection.summaries[\x27bits_per_byte\x27].mean",
        AggStrategy.AddStrategy)] := by
  simp only [ MODEL_SIZES, List.mem_cons, List.mem_singleton, List.not_mem_nil,
    or_false] at hk
  rcases hk with h | h <;> subst h
  · rw [learnerOf, okPart, get_test_eq]; rfl
  · rw [learnerOf, okPart, get_7B_eq]; rfl

/-- C8 witness at key "test". -/
theorem claim_C8_w :
    (learnerOf (get_trainer_kwargs "test" 32 8)).map
        LearnerConfig.metrics_accumulation_key_ops =
      some [(".output_collection.summaries[\x27bits_per_byte\x27].mean",
        AggStrategy.AddStrategy)] :=
  claim_C8 "test" 32 8 (by simp [ MODEL_SIZES])

/-- C9: for every call of `model_config`, the feed-forward activation is wired as the
gated pair of exactly two activation slots — the nonlinear "nn.silu" branch and the
"linear" branch — never a single activation. -/
theorem claim_C9 (nl hd nh vs : ℕ) (dr : ℚ) (fd : Option FfnDim) :
    (model_config nl hd nh vs dr fd).activation_fn =
      ActivationSpec.pair "nn.silu" "linear" ∧
    ∀ s, (model_config nl hd nh vs dr fd).activation_fn ≠ ActivationSpec.single s :=
  ⟨rfl, fun s h => by simp [model_config, common_model_config] at h⟩

/-- C10: both valid size keys build the learner config with the module-wide
gradient-accumulation microbatch count (the global constant 8) and with the very
same metric-aggregation mapping. -/
theorem claim_C10 (v d v2 e : ℕ) :
    (learnerOf (get_trainer_kwargs "test" v d)).map
        LearnerConfig.gradient_accumulation_microbatches =
      some GRADIENT_ACCUMULATION_MICROBATCHES ∧
    (learnerOf (get_trainer_kwargs "7B" v2 e)).map
        LearnerConfig.gradient_accumulation_microbatches =
      some GRADIENT_ACCUMULATION_MICROBATCHES ∧
    GRADIENT_ACCUMULATION_MICROBATCHES = 8 ∧
    (learnerOf (get_trainer_kwargs "test" v d)).map
        LearnerConfig.metrics_accumulation_key_ops =
      (learnerOf (get_trainer_kwargs "7B" v2 e)).map
        LearnerConfig.metrics_accumulation_key_ops := by
  refine ⟨?_, ?_, rfl, ?_⟩
  · rw [learnerOf, okPart, get_test_eq]; rfl
  · rw [learnerOf, okPart, get_7B_eq]; rfl
  · rw [learnerOf, okPart, get_test_eq, get_7B_eq]; rfl

end Fuji
